import Mathlib

/-!
# Conversation client: chat log, pending flag and the three input adapters

A shallow embedding of `frontend/src/App.js`, `components/TextInput.js`,
`components/SpeechInput.js` and `components/RecordAudio.js`.

Conventions of the embedding.

* React state is an explicit record; a `setX(v)` call is a field update and a
  functional update `setChatLog(prev => [...prev, m])` is an append, applied in
  program order.
* An `async` handler is split at its `await`: the part that runs synchronously
  up to the `fetch` call (`…Start`), and the part that runs once the request
  has settled (`…Settle`), which receives the outcome of the request as an
  argument.  The composite handler runs both with nothing interleaved.
* The clock is an input: every `addMessage` call receives the reading it makes
  (`Date.now()` and `new Date().toLocaleTimeString()`).
* A closure is represented by the values it captured.
-/

set_option autoImplicit false

/-! ## JavaScript values and strings -/

/-- A JavaScript value as produced by `response.json()` (a parsed JSON text), extended with
`undefined`, which property access produces.  Numbers are kept as their literal text: the
program never computes with them. -/
inductive JsVal where
  | undefined
  | null
  | bool (b : Bool)
  | num (literal : String)
  | str (s : String)
  | arr (items : List JsVal)
  | obj (fields : List (String × JsVal))

namespace JsVal

/-- Property read `v.key` for a key that no built-in prototype defines (the program reads only
`response`, `transcribed_text`, `overall_sentiment`, `vader_result`, `roberta_result`).
`none` stands for the `TypeError` thrown when `v` is `null` or `undefined`. -/
def getProp (v : JsVal) (key : String) : Option JsVal :=
  match v with
  | undefined => none
  | null => none
  | obj fields => some ((fields.lookup key).getD undefined)
  | _ => some undefined

/-- Whether the value is `null` or `undefined`, the values on which a property read throws. -/
def isNullish : JsVal → Bool
  | undefined => true
  | null => true
  | _ => false

end JsVal

/-- The code points removed by `String.prototype.trim`: ECMAScript WhiteSpace and
LineTerminator. -/
def isJsWhiteSpace (c : Char) : Bool :=
  let n := c.toNat
  n == 0x09 || n == 0x0A || n == 0x0B || n == 0x0C || n == 0x0D || n == 0x20 ||
  n == 0xA0 || n == 0x1680 || (0x2000 ≤ n && n ≤ 0x200A) || n == 0x2028 || n == 0x2029 ||
  n == 0x202F || n == 0x205F || n == 0x3000 || n == 0xFEFF

/-- Trimming on the list of characters: white space is dropped from both ends. -/
def jsTrimChars (cs : List Char) : List Char :=
  ((cs.dropWhile isJsWhiteSpace).reverse.dropWhile isJsWhiteSpace).reverse

/-- The built-in `String.prototype.trim`. -/
def jsTrim (s : String) : String :=
  String.mk (jsTrimChars s.data)

/-- Truthiness of a string: every string but the empty one is truthy. -/
def jsTruthy (s : String) : Bool :=
  !(s == "")

/-- The built-in `Number.prototype.toString()` on a number that is a non-negative integer
(one that JavaScript represents exactly and prints without an exponent): its decimal digits,
most significant first, `0` for zero. -/
def jsNumberToString (n : Nat) : String :=
  Nat.repr n

/-- The built-in `String.prototype.padStart(maxLength, fillString)`: a string already
`maxLength` long, or an empty `fillString`, gives the string back; otherwise the missing
length is filled, in front, with `fillString` repeated and cut to that length. -/
def jsPadStart (s : String) (maxLength : Nat) (fillString : String) : String :=
  if maxLength ≤ s.length then s
  else if fillString = "" then s
  else
    let fillLen := maxLength - s.length
    String.mk (((List.replicate fillLen fillString.data).foldr (fun x acc => x ++ acc) []).take
      fillLen) ++ s

/-- A string that is empty or made of white space only. -/
def isBlank (s : String) : Prop :=
  ∀ c ∈ s.data, isJsWhiteSpace c = true

/-! ## `App.js`: the chat log and the pending flag -/

/-- One reading of the clock, as `addMessage` makes it: `Date.now()` and
`new Date().toLocaleTimeString()`. -/
structure Tick where
  now : Int
  localeTime : String

/-- An entry of `chatLog`: the object literal built by `addMessage`.  `metadata` holds the
properties spread from the fourth argument (`sentiment`, `vader`, `roberta` at the call sites
that pass one, none otherwise). -/
structure Message where
  id : Int
  sender : String
  text : JsVal
  type : String
  timestamp : String
  metadata : List (String × JsVal)

/-- The state held by the `App` component. -/
structure AppState where
  chatLog : List Message
  isLoading : Bool
  activeInput : String

/-- Result of running a callback that may throw: the state reached, and whether the callback
returned or threw from there. -/
inductive Completion where
  | returned (s : AppState)
  | threw (s : AppState)

namespace App

/-- Initial state: `useState([])`, `useState(false)`, `useState('text')`. -/
def init : AppState :=
  { chatLog := [], isLoading := false, activeInput := "text" }

/-- The function `addMessage(sender, text, type, metadata)`: the new entry takes its id and
timestamp from the clock and is appended to the log. -/
def addMessage (tick : Tick) (sender : String) (text : JsVal) (type : String)
    (metadata : List (String × JsVal)) (s : AppState) : AppState :=
  let newMessage : Message :=
    { id := tick.now, sender := sender, text := text, type := type,
      timestamp := tick.localeTime, metadata := metadata }
  { s with chatLog := s.chatLog ++ [newMessage] }

/-- The function `handleInputStart()`. -/
def handleInputStart (s : AppState) : AppState :=
  { s with isLoading := true }

/-- The body shared, word for word, by `handleTextResponse`, `handleVoiceResponse` and
`handleAudioResponse`: `setIsLoading(false)` runs first, then the arguments of `addMessage`
are evaluated, which throws when `data` is `null` or `undefined`. -/
def handleResponse (tick : Tick) (data : JsVal) (s : AppState) : Completion :=
  let s1 := { s with isLoading := false }
  match data.getProp "response", data.getProp "overall_sentiment",
        data.getProp "vader_result", data.getProp "roberta_result" with
  | some response, some sentiment, some vader, some roberta =>
      Completion.returned
        (addMessage tick "Therapist" response "text"
          [("sentiment", sentiment), ("vader", vader), ("roberta", roberta)] s1)
  | _, _, _, _ => Completion.threw s1

/-- The function `handleTextResponse(data)`. -/
def handleTextResponse (tick : Tick) (data : JsVal) (s : AppState) : Completion :=
  handleResponse tick data s

/-- The function `handleVoiceResponse(data)`. -/
def handleVoiceResponse (tick : Tick) (data : JsVal) (s : AppState) : Completion :=
  handleResponse tick data s

/-- The function `handleAudioResponse(data)`. -/
def handleAudioResponse (tick : Tick) (data : JsVal) (s : AppState) : Completion :=
  handleResponse tick data s

end App

/-! ## The request and its outcome -/

/-- Body of an outgoing request. -/
inductive RequestBody where
  | json (text : String)
  | multipart (file : List Nat) (filename : String)

/-- A `fetch` call: always a `POST`. -/
structure Request where
  url : String
  body : RequestBody

/-- How a request settles.  `rejected`: `fetch` throws.  `response ok body`: a response arrived,
`ok` is `response.ok` (status 2xx), and `body` is what `response.json()` yields, `none` when it
rejects because the body is not JSON. -/
inductive FetchOutcome where
  | rejected
  | response (ok : Bool) (body : Option JsVal)

/-! ## `TextInput.js` -/

/-- Local state of the `TextInput` component. -/
structure TextInputState where
  input : String
  isSubmitting : Bool

/-- The `App` state together with the state of the mounted adapter. -/
structure View (σ : Type) where
  app : AppState
  comp : σ

namespace TextInput

def analyzeUrl : String := "http://127.0.0.1:5001/analyze"

def errorText : String := "Sorry, I'm having trouble connecting right now. Please try again."

/-- The handler `handleSubmit`, up to the `await fetch(...)`: the state reached and the request issued,
`none` when the handler returned at the guard. -/
def handleSubmitStart (tick : Tick) (v : View TextInputState) :
    View TextInputState × Option Request :=
  if !jsTruthy (jsTrim v.comp.input) then (v, none)
  else
    let comp1 := { v.comp with isSubmitting := true }
    let app1 := App.handleInputStart v.app
    let app2 := App.addMessage tick "You" (JsVal.str (jsTrim v.comp.input)) "text" [] app1
    ({ app := app2, comp := comp1 },
     some { url := analyzeUrl, body := RequestBody.json (jsTrim v.comp.input) })

/-- The handler `handleSubmit`, from the point where the request has settled: the rest of the `try`
block, the `catch` block and the `finally` block. -/
def handleSubmitSettle (tick : Tick) (outcome : FetchOutcome) (v : View TextInputState) :
    View TextInputState :=
  let onCatch (s : AppState) : AppState := App.addMessage tick "System" (JsVal.str errorText) "text" [] s
  let app1 : AppState :=
    match outcome with
    | FetchOutcome.rejected => onCatch v.app
    | FetchOutcome.response false _ => onCatch v.app
    | FetchOutcome.response true none => onCatch v.app
    | FetchOutcome.response true (some data) =>
        match App.handleTextResponse tick data v.app with
        | Completion.returned s => s
        | Completion.threw s => onCatch s
  { app := app1, comp := { isSubmitting := false, input := "" } }

/-- A whole run of `handleSubmit`: `tick1` is the clock when the user message is added,
`tick2` when the reply or the error message is. -/
def handleSubmit (tick1 tick2 : Tick) (outcome : FetchOutcome) (v : View TextInputState) :
    View TextInputState :=
  match handleSubmitStart tick1 v with
  | (v1, none) => v1
  | (v1, some _) => handleSubmitSettle tick2 outcome v1

end TextInput

/-! ## `SpeechInput.js` -/

/-- One entry of `event.results`: the transcript of its first alternative
(`event.results[i][0].transcript`) and its `isFinal` flag. -/
structure SpeechRecognitionResult where
  transcript : String
  isFinal : Bool

/-- A `result` event of the recognition session. -/
structure SpeechRecognitionEvent where
  resultIndex : Nat
  results : List SpeechRecognitionResult

/-- A recognition object built by one run of the effect.  Its `onend` handler, and the
`handleSubmit` that handler calls, are closures of the render in which the effect ran; the only
state variable they read is `transcript`, whose captured value is recorded here. -/
structure RecognitionInstance where
  transcript : String

/-- Local state of the `SpeechInput` component. -/
structure SpeechInputState where
  isListening : Bool
  transcript : String
  isProcessing : Bool
  recognition : Option RecognitionInstance

namespace SpeechInput

def analyzeUrl : String := "http://127.0.0.1:5001/analyze"

def errorText : String :=
  "Sorry, I'm having trouble processing your voice input. Please try again."

/-- Initial state: `useState(false)`, `useState('')`, `useState(false)`, `useState(null)`. -/
def init : SpeechInputState :=
  { isListening := false, transcript := "", isProcessing := false, recognition := none }

/-- The effect, in a browser that has speech recognition: a new recognition object is built,
whose handlers close over the `transcript` of the current render, and is stored with
`setRecognition`.  Its dependencies are `[addMessage, handleSubmit]` and `handleSubmit` is
rebuilt whenever `transcript` changes, so the effect runs again after every change of
`transcript`; it has no cleanup, so an object that was started keeps its own handlers. -/
def useEffect (s : SpeechInputState) : SpeechInputState :=
  { s with recognition := some { transcript := s.transcript } }

/-- The component after mounting: initial state, then the first run of the effect. -/
def mount : SpeechInputState :=
  useEffect init

/-- The handler `handleSubmit` as built in a render whose `transcript` is `captured`, up to the
`await fetch(...)`. -/
def handleSubmitStart (captured : String) (tick : Tick) (v : View SpeechInputState) :
    View SpeechInputState × Option Request :=
  if !jsTruthy (jsTrim captured) then (v, none)
  else
    let comp1 := { v.comp with isProcessing := true }
    let app1 := App.handleInputStart v.app
    let app2 := App.addMessage tick "You" (JsVal.str (jsTrim captured)) "speech" [] app1
    ({ app := app2, comp := comp1 },
     some { url := analyzeUrl, body := RequestBody.json (jsTrim captured) })

/-- The handler `handleSubmit`, from the point where the request has settled. -/
def handleSubmitSettle (tick : Tick) (outcome : FetchOutcome) (v : View SpeechInputState) :
    View SpeechInputState :=
  let onCatch (s : AppState) : AppState := App.addMessage tick "System" (JsVal.str errorText) "text" [] s
  let app1 : AppState :=
    match outcome with
    | FetchOutcome.rejected => onCatch v.app
    | FetchOutcome.response false _ => onCatch v.app
    | FetchOutcome.response true none => onCatch v.app
    | FetchOutcome.response true (some data) =>
        match App.handleVoiceResponse tick data v.app with
        | Completion.returned s => s
        | Completion.threw s => onCatch s
  { app := app1, comp := useEffect { v.comp with isProcessing := false, transcript := "" } }

/-- A whole run of the `handleSubmit` built in a render whose `transcript` is `captured`. -/
def handleSubmit (captured : String) (tick1 tick2 : Tick) (outcome : FetchOutcome)
    (v : View SpeechInputState) : View SpeechInputState :=
  match handleSubmitStart captured tick1 v with
  | (v1, none) => v1
  | (v1, some _) => handleSubmitSettle tick2 outcome v1

/-- The handler `handleManualSubmit`, up to the `await`: it belongs to the current render, so the
`transcript` it tests and the `handleSubmit` it calls are the current ones. -/
def handleManualSubmitStart (tick : Tick) (v : View SpeechInputState) :
    View SpeechInputState × Option Request :=
  if jsTruthy (jsTrim v.comp.transcript) then handleSubmitStart v.comp.transcript tick v
  else (v, none)

/-- A whole run of `handleManualSubmit`. -/
def handleManualSubmit (tick1 tick2 : Tick) (outcome : FetchOutcome)
    (v : View SpeechInputState) : View SpeechInputState :=
  match handleManualSubmitStart tick1 v with
  | (v1, none) => v1
  | (v1, some _) => handleSubmitSettle tick2 outcome v1

/-- The loop of `onresult`: entries from `resultIndex` on are visited in order, final ones
are appended to `finalTranscript`, the others to `interimTranscript`.  The pair is
`(finalTranscript, interimTranscript)`. -/
def onresultLoop (event : SpeechRecognitionEvent) : String × String :=
  (event.results.drop event.resultIndex).foldl
    (fun acc r =>
      if r.isFinal then (acc.1 ++ r.transcript, acc.2) else (acc.1, acc.2 ++ r.transcript))
    ("", "")

/-- The value `onresult` passes to `setTranscript`. -/
def onresultTranscript (event : SpeechRecognitionEvent) : String :=
  (onresultLoop event).1 ++ (onresultLoop event).2

/-- The handler `recognitionInstance.onstart`, followed by the re-render. -/
def onstart (s : SpeechInputState) : SpeechInputState :=
  useEffect { s with isListening := true, transcript := "" }

/-- The handler `recognitionInstance.onresult`, followed by the re-render. -/
def onresult (event : SpeechRecognitionEvent) (s : SpeechInputState) : SpeechInputState :=
  useEffect { s with transcript := onresultTranscript event }

/-- The handler `recognitionInstance.onend` of the object `inst`, up to the `await` inside the
`handleSubmit` it may call: the `transcript` tested and submitted is the captured one. -/
def onend (inst : RecognitionInstance) (tick : Tick) (v : View SpeechInputState) :
    View SpeechInputState × Option Request :=
  let v1 : View SpeechInputState := { v with comp := { v.comp with isListening := false } }
  if jsTruthy (jsTrim inst.transcript) then handleSubmitStart inst.transcript tick v1
  else (v1, none)

/-- The transcript shown after a sequence of `result` events of one session. -/
def transcriptAfter (events : List SpeechRecognitionEvent) (s : SpeechInputState) :
    SpeechInputState :=
  events.foldl (fun st e => onresult e st) (onstart s)

/-- One recognition session: the microphone button is pressed (`startListening` calls
`start()` on the object held in `recognition`), the browser fires `onstart`, then the `result`
events, then `onend`, all on the object that was started.  Returns the state reached and the
request issued by `onend`, if any. -/
def runSession (events : List SpeechRecognitionEvent) (tick : Tick)
    (v : View SpeechInputState) : View SpeechInputState × Option Request :=
  match v.comp.recognition with
  | none => (v, none)
  | some inst => onend inst tick { v with comp := transcriptAfter events v.comp }

end SpeechInput

/-! ## `RecordAudio.js` -/

/-- Local state of the `RecordAudio` component. -/
structure RecordAudioState where
  recording : Bool
  isProcessing : Bool
  recordingTime : Nat
  audioURL : Option String

namespace RecordAudio

def analyzeAudioUrl : String := "http://127.0.0.1:5001/analyze-audio"

def errorText : String := "Sorry, I'm having trouble processing your audio. Please try again."

def placeholderText : String := "[Audio Message]"

/-- The handler `handleAudioSubmit(audioBlob)`, up to the `await fetch(...)`. -/
def handleAudioSubmitStart (audioBlob : List Nat) (tick : Tick) (v : View RecordAudioState) :
    View RecordAudioState × Option Request :=
  let comp1 := { v.comp with isProcessing := true }
  let app1 := App.handleInputStart v.app
  let app2 := App.addMessage tick "You" (JsVal.str placeholderText) "audio" [] app1
  ({ app := app2, comp := comp1 },
   some { url := analyzeAudioUrl, body := RequestBody.multipart audioBlob "recording.webm" })

/-- The handler `handleAudioSubmit`, from the point where the request has settled.  `tick2` is the clock
at the first `addMessage` call of this part, `tick3` at the second one when there is one. -/
def handleAudioSubmitSettle (tick2 tick3 : Tick) (outcome : FetchOutcome)
    (v : View RecordAudioState) : View RecordAudioState :=
  let onCatch (tick : Tick) (s : AppState) : AppState :=
    App.addMessage tick "System" (JsVal.str errorText) "text" [] s
  let app1 : AppState :=
    match outcome with
    | FetchOutcome.rejected => onCatch tick2 v.app
    | FetchOutcome.response false _ => onCatch tick2 v.app
    | FetchOutcome.response true none => onCatch tick2 v.app
    | FetchOutcome.response true (some data) =>
        match data.getProp "transcribed_text" with
        | none => onCatch tick2 v.app
        | some transcribed =>
            match App.handleAudioResponse tick3 data
                (App.addMessage tick2 "You" transcribed "audio" [] v.app) with
            | Completion.returned s => s
            | Completion.threw s => onCatch tick3 s
  { app := app1,
    comp := { v.comp with isProcessing := false, audioURL := none, recordingTime := 0 } }

/-- A whole run of `handleAudioSubmit(audioBlob)`. -/
def handleAudioSubmit (audioBlob : List Nat) (tick1 tick2 tick3 : Tick)
    (outcome : FetchOutcome) (v : View RecordAudioState) : View RecordAudioState :=
  match handleAudioSubmitStart audioBlob tick1 v with
  | (v1, none) => v1
  | (v1, some _) => handleAudioSubmitSettle tick2 tick3 outcome v1

/-- The function `formatTime(seconds)`, applied to the elapsed time, a counter that starts at 0
and is incremented by the one-second timer: `Math.floor(seconds / 60)` is the integer
quotient and `seconds % 60` the remainder. -/
def formatTime (seconds : Nat) : String :=
  let mins := seconds / 60
  let secs := seconds % 60
  jsNumberToString mins ++ ":" ++ jsPadStart (jsNumberToString secs) 2 "0"

end RecordAudio

/-! ## Vocabulary of the statements -/

/-- The value read by `d.key` once the read is known not to throw: the property when `d` is an
object that has it, `undefined` otherwise. -/
def JsVal.field (d : JsVal) (key : String) : JsVal :=
  (d.getProp key).getD JsVal.undefined

/-- A request that fails: `fetch` throws, or the status of the response is not 2xx. -/
def FetchOutcome.failed : FetchOutcome → Bool
  | FetchOutcome.rejected => true
  | FetchOutcome.response ok _ => !ok

/-- The user entry `addMessage("You", text, type)` made at clock reading `tick`. -/
def userMessage (tick : Tick) (text : JsVal) (type : String) : Message :=
  { id := tick.now, sender := "You", text := text, type := type,
    timestamp := tick.localeTime, metadata := [] }

/-- The error entry `addMessage("System", text, 'text')` made at clock reading `tick`. -/
def systemMessage (tick : Tick) (text : String) : Message :=
  { id := tick.now, sender := "System", text := JsVal.str text, type := "text",
    timestamp := tick.localeTime, metadata := [] }

/-- The reply entry made from response data `d` at clock reading `tick`: sender `Therapist`,
text `d.response`, and the three sentiment results of `d`. -/
def assistantMessage (tick : Tick) (d : JsVal) : Message :=
  { id := tick.now, sender := "Therapist", text := d.field "response", type := "text",
    timestamp := tick.localeTime,
    metadata := [("sentiment", d.field "overall_sentiment"), ("vader", d.field "vader_result"),
      ("roberta", d.field "roberta_result")] }

/-- The Text adapter in a state the user can reach with the pending flag set: the draft `hi`
was submitted and answered with HTTP 500, and the user has then typed `again`
(`setInput(e.target.value)`). -/
def TextInput.viewAfterFailure : View TextInputState :=
  { app := (TextInput.handleSubmit ⟨1000, "10:00:00"⟩ ⟨1200, "10:00:01"⟩
      (FetchOutcome.response false none) ⟨App.init, ⟨"hi", false⟩⟩).app,
    comp := { input := "again", isSubmitting := false } }

/-- Concatenation of a list of strings, in order. -/
def concatAll : List String → String
  | [] => ""
  | s :: rest => s ++ concatAll rest

/-- The transcript the specification describes for the moment after `event`, whose `results`
list holds every result of the session so far: all segments already final, in order of
arrival, followed by the pending interim text. -/
def SpeechInput.specTranscript (event : SpeechRecognitionEvent) : String :=
  concatAll ((event.results.filter (fun r => r.isFinal)).map (fun r => r.transcript)) ++
  concatAll ((event.results.filter (fun r => !r.isFinal)).map (fun r => r.transcript))

/-- The decimal numeral of `n`: its base-10 digits, most significant first, without leading
zeros; the numeral of zero is `0`. -/
def decimalNumeral (n : Nat) : String :=
  String.mk (if n = 0 then ['0'] else ((Nat.digits 10 n).reverse.map Nat.digitChar))

/-- The number `k` written with exactly two decimal digits: the tens digit, then the units
digit. -/
def twoDigits (k : Nat) : String :=
  String.mk [Nat.digitChar (k / 10), Nat.digitChar (k % 10)]

/-- The elapsed time as the specification of `formatTime` describes it: the decimal numeral of
the whole minutes, a colon, and the remaining seconds on two digits. -/
def RecordAudio.specFormatTime (s : Nat) : String :=
  decimalNumeral (s / 60) ++ ":" ++ twoDigits (s % 60)

/-! ## Basic facts -/

theorem jsTruthy_eq_true {s : String} (h : s ≠ "") : jsTruthy s = true := by
  simp [jsTruthy, h]

theorem jsTrim_of_isBlank {s : String} (h : isBlank s) : jsTrim s = "" := by
  have h1 : s.data.dropWhile isJsWhiteSpace = [] := by
    rw [List.dropWhile_eq_nil_iff]
    exact h
  simp [jsTrim, jsTrimChars, h1]

theorem getProp_of_not_nullish {d : JsVal} (h : d.isNullish = false) (key : String) :
    d.getProp key = some (d.field key) := by
  cases d <;> simp_all [JsVal.getProp, JsVal.field, JsVal.isNullish]

theorem getProp_of_nullish {d : JsVal} (h : d.isNullish = true) (key : String) :
    d.getProp key = none := by
  cases d <;> simp_all [JsVal.getProp, JsVal.isNullish]

theorem handleResponse_of_not_nullish (tick : Tick) {d : JsVal} (h : d.isNullish = false)
    (s : AppState) :
    App.handleResponse tick d s =
      Completion.returned
        { chatLog := s.chatLog ++ [assistantMessage tick d], isLoading := false,
          activeInput := s.activeInput } := by
  simp [App.handleResponse, getProp_of_not_nullish h, App.addMessage, assistantMessage]

theorem handleResponse_of_nullish (tick : Tick) {d : JsVal} (h : d.isNullish = true)
    (s : AppState) :
    App.handleResponse tick d s = Completion.threw { s with isLoading := false } := by
  simp [App.handleResponse, getProp_of_nullish h]

/-! ## The pending flag -/

/-- C1: a Text submission of the draft `hi` that is answered with HTTP 500 starts with the
pending flag `false`, issues its request, and leaves `isLoading` equal to `true` after it has
settled: neither `catch` nor `finally` clears the flag. -/
theorem pending_flag_left_true_by_failed_text_submission :
    (TextInput.handleSubmitStart ⟨1000, "10:00:00"⟩ ⟨App.init, ⟨"hi", false⟩⟩).2.isSome = true ∧
    (TextInput.handleSubmitStart ⟨1000, "10:00:00"⟩ ⟨App.init, ⟨"hi", false⟩⟩).1.app.isLoading
      = true ∧
    (TextInput.handleSubmit ⟨1000, "10:00:00"⟩ ⟨1200, "10:00:01"⟩
      (FetchOutcome.response false none) ⟨App.init, ⟨"hi", false⟩⟩).app.isLoading = true ∧
    (TextInput.handleSubmit ⟨1000, "10:00:00"⟩ ⟨1200, "10:00:01"⟩
      (FetchOutcome.response false none) ⟨App.init, ⟨"hi", false⟩⟩).comp.isSubmitting
      = false := by
  decide

/-- The flag is left set by every failed submission of every adapter. -/
theorem pending_flag_after_failure (tick1 tick2 tick3 : Tick) (o : FetchOutcome)
    (ho : o.failed = true) (vt : View TextInputState) (ht : jsTrim vt.comp.input ≠ "")
    (vs : View SpeechInputState) (captured : String) (hs : jsTrim captured ≠ "")
    (va : View RecordAudioState) (blob : List Nat) :
    (TextInput.handleSubmit tick1 tick2 o vt).app.isLoading = true ∧
    (SpeechInput.handleSubmit captured tick1 tick2 o vs).app.isLoading = true ∧
    (RecordAudio.handleAudioSubmit blob tick1 tick2 tick3 o va).app.isLoading = true := by
  cases o with
  | rejected =>
      simp [TextInput.handleSubmit, TextInput.handleSubmitStart, TextInput.handleSubmitSettle,
        SpeechInput.handleSubmit, SpeechInput.handleSubmitStart, SpeechInput.handleSubmitSettle,
        RecordAudio.handleAudioSubmit, RecordAudio.handleAudioSubmitStart,
        RecordAudio.handleAudioSubmitSettle, jsTruthy, ht, hs, App.addMessage,
        App.handleInputStart]
  | response ok body =>
      cases ok with
      | true => simp [FetchOutcome.failed] at ho
      | false =>
          simp [TextInput.handleSubmit, TextInput.handleSubmitStart,
            TextInput.handleSubmitSettle, SpeechInput.handleSubmit,
            SpeechInput.handleSubmitStart, SpeechInput.handleSubmitSettle,
            RecordAudio.handleAudioSubmit, RecordAudio.handleAudioSubmitStart,
            RecordAudio.handleAudioSubmitSettle, jsTruthy, ht, hs, App.addMessage,
            App.handleInputStart]

/-- The flag is cleared by every submission answered with a 2xx status and a JSON body. -/
theorem pending_flag_after_json_reply (tick1 tick2 tick3 : Tick) (d : JsVal)
    (vt : View TextInputState) (ht : jsTrim vt.comp.input ≠ "")
    (vs : View SpeechInputState) (captured : String) (hs : jsTrim captured ≠ "")
    (va : View RecordAudioState) (blob : List Nat) (hd : d.isNullish = false) :
    (TextInput.handleSubmit tick1 tick2 (FetchOutcome.response true (some d)) vt).app.isLoading
      = false ∧
    (SpeechInput.handleSubmit captured tick1 tick2 (FetchOutcome.response true (some d))
      vs).app.isLoading = false ∧
    (RecordAudio.handleAudioSubmit blob tick1 tick2 tick3 (FetchOutcome.response true (some d))
      va).app.isLoading = false := by
  simp [TextInput.handleSubmit, TextInput.handleSubmitStart, TextInput.handleSubmitSettle,
    SpeechInput.handleSubmit, SpeechInput.handleSubmitStart, SpeechInput.handleSubmitSettle,
    RecordAudio.handleAudioSubmit, RecordAudio.handleAudioSubmitStart,
    RecordAudio.handleAudioSubmitSettle, jsTruthy, ht, hs, App.handleTextResponse,
    App.handleVoiceResponse, App.handleAudioResponse, handleResponse_of_not_nullish _ hd,
    getProp_of_not_nullish hd]

/-! ## What a submission appends to the log -/

/-- C2: a Text submission whose draft trims to a non-empty `t`, and a Speech submission
whose transcript does, answered with data `d` (a JSON value other than `null`), leave the log
equal to the log before followed by the user message with text `t` tagged `text`,
respectively `speech`, then the assistant message with text `d.response` and the sentiment
results of `d`. -/
theorem successful_submission_appends_user_then_assistant (tick1 tick2 : Tick) (d : JsVal)
    (vt : View TextInputState) (vs : View SpeechInputState)
    (hd : d.isNullish = false) (ht : jsTrim vt.comp.input ≠ "")
    (hs : jsTrim vs.comp.transcript ≠ "") :
    (TextInput.handleSubmit tick1 tick2 (FetchOutcome.response true (some d)) vt).app.chatLog
      = vt.app.chatLog ++
          [userMessage tick1 (JsVal.str (jsTrim vt.comp.input)) "text",
           assistantMessage tick2 d] ∧
    (SpeechInput.handleSubmit vs.comp.transcript tick1 tick2
        (FetchOutcome.response true (some d)) vs).app.chatLog
      = vs.app.chatLog ++
          [userMessage tick1 (JsVal.str (jsTrim vs.comp.transcript)) "speech",
           assistantMessage tick2 d] ∧
    (SpeechInput.handleManualSubmit tick1 tick2
        (FetchOutcome.response true (some d)) vs).app.chatLog
      = vs.app.chatLog ++
          [userMessage tick1 (JsVal.str (jsTrim vs.comp.transcript)) "speech",
           assistantMessage tick2 d] := by
  simp [TextInput.handleSubmit, TextInput.handleSubmitStart, TextInput.handleSubmitSettle,
    SpeechInput.handleSubmit, SpeechInput.handleManualSubmit,
    SpeechInput.handleManualSubmitStart, SpeechInput.handleSubmitStart,
    SpeechInput.handleSubmitSettle, jsTruthy, ht, hs, App.handleTextResponse,
    App.handleVoiceResponse, handleResponse_of_not_nullish _ hd, App.addMessage,
    App.handleInputStart, userMessage]

/-- Witness of C2: the draft and the transcript `I feel anxious today`, answered with
`{"response": "I hear you", "overall_sentiment": "negative"}`. -/
theorem successful_submission_appends_user_then_assistant_witness :
    (JsVal.obj [("response", JsVal.str "I hear you"),
        ("overall_sentiment", JsVal.str "negative")]).isNullish = false ∧
    jsTrim "I feel anxious today" ≠ "" ∧
    jsTrim "I feel anxious today " ≠ "" ∧
    (TextInput.handleSubmit ⟨1000, "10:00:00"⟩ ⟨1200, "10:00:01"⟩
        (FetchOutcome.response true (some (JsVal.obj [("response", JsVal.str "I hear you"),
          ("overall_sentiment", JsVal.str "negative")])))
        ⟨App.init, ⟨"I feel anxious today", false⟩⟩).app.chatLog
      = [] ++
          [userMessage ⟨1000, "10:00:00"⟩ (JsVal.str (jsTrim "I feel anxious today")) "text",
           assistantMessage ⟨1200, "10:00:01"⟩
             (JsVal.obj [("response", JsVal.str "I hear you"),
               ("overall_sentiment", JsVal.str "negative")])] :=
  ⟨rfl, by decide, by decide,
    (successful_submission_appends_user_then_assistant ⟨1000, "10:00:00"⟩ ⟨1200, "10:00:01"⟩
      (JsVal.obj [("response", JsVal.str "I hear you"),
        ("overall_sentiment", JsVal.str "negative")])
      ⟨App.init, ⟨"I feel anxious today", false⟩⟩
      ⟨App.init, ⟨false, "I feel anxious today ", false, none⟩⟩ rfl (by decide) (by decide)).1⟩

/-- C3: whatever the adapter, a submission whose request fails (`fetch` throws, or the
status is not 2xx) leaves the log equal to the log before followed by the user message and
then one `System` message; no assistant message is appended. -/
theorem failed_submission_appends_user_then_system (tick1 tick2 tick3 : Tick)
    (o : FetchOutcome) (vt : View TextInputState) (vs : View SpeechInputState)
    (captured : String) (va : View RecordAudioState) (blob : List Nat)
    (ho : o.failed = true) (ht : jsTrim vt.comp.input ≠ "") (hs : jsTrim captured ≠ "") :
    (TextInput.handleSubmit tick1 tick2 o vt).app.chatLog
      = vt.app.chatLog ++
          [userMessage tick1 (JsVal.str (jsTrim vt.comp.input)) "text",
           systemMessage tick2 TextInput.errorText] ∧
    (SpeechInput.handleSubmit captured tick1 tick2 o vs).app.chatLog
      = vs.app.chatLog ++
          [userMessage tick1 (JsVal.str (jsTrim captured)) "speech",
           systemMessage tick2 SpeechInput.errorText] ∧
    (RecordAudio.handleAudioSubmit blob tick1 tick2 tick3 o va).app.chatLog
      = va.app.chatLog ++
          [userMessage tick1 (JsVal.str RecordAudio.placeholderText) "audio",
           systemMessage tick2 RecordAudio.errorText] := by
  cases o with
  | rejected =>
      simp [TextInput.handleSubmit, TextInput.handleSubmitStart, TextInput.handleSubmitSettle,
        SpeechInput.handleSubmit, SpeechInput.handleSubmitStart, SpeechInput.handleSubmitSettle,
        RecordAudio.handleAudioSubmit, RecordAudio.handleAudioSubmitStart,
        RecordAudio.handleAudioSubmitSettle, jsTruthy, ht, hs, App.addMessage,
        App.handleInputStart, userMessage, systemMessage]
  | response ok body =>
      cases ok with
      | true => simp [FetchOutcome.failed] at ho
      | false =>
          simp [TextInput.handleSubmit, TextInput.handleSubmitStart,
            TextInput.handleSubmitSettle, SpeechInput.handleSubmit,
            SpeechInput.handleSubmitStart, SpeechInput.handleSubmitSettle,
            RecordAudio.handleAudioSubmit, RecordAudio.handleAudioSubmitStart,
            RecordAudio.handleAudioSubmitSettle, jsTruthy, ht, hs, App.addMessage,
            App.handleInputStart, userMessage, systemMessage]

/-- Witness of C3: the draft `I feel anxious today` answered with HTTP 500. -/
theorem failed_submission_appends_user_then_system_witness :
    (FetchOutcome.response false none).failed = true ∧
    jsTrim "I feel anxious today" ≠ "" ∧
    jsTrim " it is hard" ≠ "" ∧
    (TextInput.handleSubmit ⟨1000, "10:00:00"⟩ ⟨1200, "10:00:01"⟩
        (FetchOutcome.response false none)
        ⟨App.init, ⟨"I feel anxious today", false⟩⟩).app.chatLog
      = [] ++
          [userMessage ⟨1000, "10:00:00"⟩ (JsVal.str (jsTrim "I feel anxious today")) "text",
           systemMessage ⟨1200, "10:00:01"⟩ TextInput.errorText] :=
  ⟨rfl, by decide, by decide,
    (failed_submission_appends_user_then_system ⟨1000, "10:00:00"⟩ ⟨1200, "10:00:01"⟩
      ⟨1200, "10:00:01"⟩ (FetchOutcome.response false none)
      ⟨App.init, ⟨"I feel anxious today", false⟩⟩ ⟨App.init, SpeechInput.mount⟩
      " it is hard" ⟨App.init, ⟨false, false, 0, none⟩⟩ [] rfl (by decide)
      (by decide)).1⟩

/-- C4: a recording answered with `{"transcribed_text": "hi", "response": "ok"}` grows the
log by three entries, not two: the placeholder `[Audio Message]` stays, and a second user
entry carrying the transcription is appended beside it before the assistant entry. -/
theorem audio_success_appends_second_user_entry :
    ((RecordAudio.handleAudioSubmit [1, 2] ⟨1000, "10:00:00"⟩ ⟨1200, "10:00:01"⟩
        ⟨1201, "10:00:01"⟩
        (FetchOutcome.response true
          (some (JsVal.obj [("transcribed_text", JsVal.str "hi"), ("response", JsVal.str "ok")])))
        ⟨App.init, ⟨false, false, 0, none⟩⟩).app.chatLog.map
      (fun m => (m.sender, m.type, match m.text with | JsVal.str t => t | _ => "")))
      = [("You", "audio", "[Audio Message]"), ("You", "audio", "hi"),
         ("Therapist", "text", "ok")] := by
  decide

/-- On every successful recording the log gains three entries: the placeholder, a second user
entry with `d.transcribed_text`, and the assistant entry. -/
theorem audio_success_log (blob : List Nat) (tick1 tick2 tick3 : Tick) (d : JsVal)
    (va : View RecordAudioState) (hd : d.isNullish = false) :
    (RecordAudio.handleAudioSubmit blob tick1 tick2 tick3 (FetchOutcome.response true (some d))
      va).app.chatLog
      = va.app.chatLog ++
          [userMessage tick1 (JsVal.str RecordAudio.placeholderText) "audio",
           userMessage tick2 (d.field "transcribed_text") "audio",
           assistantMessage tick3 d] := by
  simp [RecordAudio.handleAudioSubmit, RecordAudio.handleAudioSubmitStart,
    RecordAudio.handleAudioSubmitSettle, App.handleAudioResponse,
    handleResponse_of_not_nullish _ hd, getProp_of_not_nullish hd, App.addMessage,
    App.handleInputStart, userMessage]

/-! ## Guards of the submit handlers -/

/-- C5, as stated, fails: in the state reached after a failed submission the pending flag is
`true` and the draft `again` is not blank, yet `handleSubmit` is not a no-op: it issues a
request and the log grows by the user message. -/
theorem submit_while_pending_is_not_a_noop :
    TextInput.viewAfterFailure.app.isLoading = true ∧
    jsTrim TextInput.viewAfterFailure.comp.input ≠ "" ∧
    ¬ (TextInput.handleSubmitStart ⟨5000, "10:00:05"⟩ TextInput.viewAfterFailure
        = (TextInput.viewAfterFailure, none)) ∧
    (TextInput.handleSubmitStart ⟨5000, "10:00:05"⟩ TextInput.viewAfterFailure).2.isSome
      = true ∧
    (TextInput.handleSubmitStart ⟨5000, "10:00:05"⟩
        TextInput.viewAfterFailure).1.app.chatLog.length
      = TextInput.viewAfterFailure.app.chatLog.length + 1 := by
  refine ⟨by decide, by decide, ?_, by decide, by decide⟩
  intro h
  have h2 := congrArg (fun r => r.2.isSome) h
  revert h2
  decide

/-- C5, amended: no submit handler reads the pending flag.  With the flag already `true` and
a non-empty payload, each adapter's submit appends its user message to the log, issues its
request, and leaves the flag as it was, `true`. -/
theorem submit_while_pending_still_submits (tick : Tick) (vt : View TextInputState)
    (vs : View SpeechInputState) (va : View RecordAudioState) (blob : List Nat)
    (hpt : vt.app.isLoading = true) (hps : vs.app.isLoading = true)
    (hpa : va.app.isLoading = true) (ht : jsTrim vt.comp.input ≠ "")
    (hs : jsTrim vs.comp.transcript ≠ "") :
    ((TextInput.handleSubmitStart tick vt).1.app.chatLog
        = vt.app.chatLog ++ [userMessage tick (JsVal.str (jsTrim vt.comp.input)) "text"] ∧
      (TextInput.handleSubmitStart tick vt).2
        = some { url := TextInput.analyzeUrl, body := RequestBody.json (jsTrim vt.comp.input) } ∧
      (TextInput.handleSubmitStart tick vt).1.app.isLoading = vt.app.isLoading) ∧
    ((SpeechInput.handleManualSubmitStart tick vs).1.app.chatLog
        = vs.app.chatLog ++ [userMessage tick (JsVal.str (jsTrim vs.comp.transcript)) "speech"] ∧
      (SpeechInput.handleManualSubmitStart tick vs).2
        = some { url := SpeechInput.analyzeUrl,
                 body := RequestBody.json (jsTrim vs.comp.transcript) } ∧
      (SpeechInput.handleManualSubmitStart tick vs).1.app.isLoading = vs.app.isLoading) ∧
    ((RecordAudio.handleAudioSubmitStart blob tick va).1.app.chatLog
        = va.app.chatLog ++ [userMessage tick (JsVal.str RecordAudio.placeholderText) "audio"] ∧
      (RecordAudio.handleAudioSubmitStart blob tick va).2
        = some { url := RecordAudio.analyzeAudioUrl,
                 body := RequestBody.multipart blob "recording.webm" } ∧
      (RecordAudio.handleAudioSubmitStart blob tick va).1.app.isLoading = va.app.isLoading) := by
  simp [TextInput.handleSubmitStart, SpeechInput.handleManualSubmitStart,
    SpeechInput.handleSubmitStart, RecordAudio.handleAudioSubmitStart, jsTruthy, ht, hs,
    hpt, hps, hpa, App.addMessage, App.handleInputStart, userMessage]

/-- Witness of C5, amended: the three adapters with the flag set, the draft `again`, the
transcript `hello` and a two-byte recording. -/
theorem submit_while_pending_still_submits_witness :
    TextInput.viewAfterFailure.app.isLoading = true ∧
    jsTrim TextInput.viewAfterFailure.comp.input ≠ "" ∧
    jsTrim "hello" ≠ "" ∧
    (TextInput.handleSubmitStart ⟨5000, "10:00:05"⟩ TextInput.viewAfterFailure).2
      = some { url := TextInput.analyzeUrl,
               body := RequestBody.json (jsTrim TextInput.viewAfterFailure.comp.input) } ∧
    (RecordAudio.handleAudioSubmitStart [1, 2] ⟨5000, "10:00:05"⟩
        ⟨TextInput.viewAfterFailure.app, ⟨false, false, 0, none⟩⟩).1.app.isLoading
      = TextInput.viewAfterFailure.app.isLoading :=
  ⟨by decide, by decide, by decide,
    (submit_while_pending_still_submits ⟨5000, "10:00:05"⟩ TextInput.viewAfterFailure
      ⟨TextInput.viewAfterFailure.app, ⟨false, "hello", false, some ⟨"hello"⟩⟩⟩
      ⟨TextInput.viewAfterFailure.app, ⟨false, false, 0, none⟩⟩ [1, 2]
      (by decide) (by decide) (by decide) (by decide) (by decide)).1.2.1,
    (submit_while_pending_still_submits ⟨5000, "10:00:05"⟩ TextInput.viewAfterFailure
      ⟨TextInput.viewAfterFailure.app, ⟨false, "hello", false, some ⟨"hello"⟩⟩⟩
      ⟨TextInput.viewAfterFailure.app, ⟨false, false, 0, none⟩⟩ [1, 2]
      (by decide) (by decide) (by decide) (by decide) (by decide)).2.2.2.2⟩

/-- C6: for a draft or transcript that is empty or white space only, the text-payload
submit handlers (`TextInput.handleSubmit`, `SpeechInput.handleSubmit` and
`SpeechInput.handleManualSubmit`) return at their guard: no request is issued and the whole
state, log and pending flag included, is unchanged, whatever the request would have answered. -/
theorem blank_payload_submit_is_a_noop (tick1 tick2 : Tick) (o : FetchOutcome)
    (vt : View TextInputState) (vs : View SpeechInputState) (captured : String)
    (ht : isBlank vt.comp.input) (hs : isBlank vs.comp.transcript) (hc : isBlank captured) :
    TextInput.handleSubmitStart tick1 vt = (vt, none) ∧
    TextInput.handleSubmit tick1 tick2 o vt = vt ∧
    SpeechInput.handleSubmitStart captured tick1 vs = (vs, none) ∧
    SpeechInput.handleSubmit captured tick1 tick2 o vs = vs ∧
    SpeechInput.handleManualSubmitStart tick1 vs = (vs, none) ∧
    SpeechInput.handleManualSubmit tick1 tick2 o vs = vs := by
  simp [TextInput.handleSubmit, TextInput.handleSubmitStart, SpeechInput.handleSubmit,
    SpeechInput.handleSubmitStart, SpeechInput.handleManualSubmit,
    SpeechInput.handleManualSubmitStart, jsTrim_of_isBlank ht, jsTrim_of_isBlank hs,
    jsTrim_of_isBlank hc, jsTruthy]

/-- Witness of C6: the draft of two spaces and a line feed, the transcript of one
no-break space, and the empty captured transcript. -/
theorem blank_payload_submit_is_a_noop_witness :
    isBlank "  \n" ∧ isBlank "\u00A0" ∧ isBlank "" ∧
    TextInput.handleSubmitStart ⟨1000, "10:00:00"⟩ ⟨App.init, ⟨"  \n", false⟩⟩
      = (⟨App.init, ⟨"  \n", false⟩⟩, none) ∧
    SpeechInput.handleManualSubmit ⟨1000, "10:00:00"⟩ ⟨1200, "10:00:01"⟩ FetchOutcome.rejected
        ⟨App.init, ⟨false, "\u00A0", false, some ⟨"\u00A0"⟩⟩⟩
      = ⟨App.init, ⟨false, "\u00A0", false, some ⟨"\u00A0"⟩⟩⟩ :=
  ⟨by unfold isBlank; decide, by unfold isBlank; decide, by unfold isBlank; decide,
    (blank_payload_submit_is_a_noop ⟨1000, "10:00:00"⟩ ⟨1200, "10:00:01"⟩ FetchOutcome.rejected
      ⟨App.init, ⟨"  \n", false⟩⟩ ⟨App.init, ⟨false, "\u00A0", false, some ⟨"\u00A0"⟩⟩⟩ ""
      (by unfold isBlank; decide) (by unfold isBlank; decide) (by unfold isBlank; decide)).1,
    (blank_payload_submit_is_a_noop ⟨1000, "10:00:00"⟩ ⟨1200, "10:00:01"⟩ FetchOutcome.rejected
      ⟨App.init, ⟨"  \n", false⟩⟩ ⟨App.init, ⟨false, "\u00A0", false, some ⟨"\u00A0"⟩⟩⟩ ""
      (by unfold isBlank; decide) (by unfold isBlank; decide)
      (by unfold isBlank; decide)).2.2.2.2.2⟩

/-! ## The transcript of a recognition session -/

theorem concatAll_append_singleton (l : List String) (s : String) :
    concatAll (l ++ [s]) = concatAll l ++ s := by
  induction l with
  | nil => simp [concatAll]
  | cons a rest ih => simp [concatAll, ih, String.append_assoc]

theorem onresultLoop_foldl (l : List SpeechRecognitionResult) (a b : String) :
    l.foldl
        (fun acc r =>
          if r.isFinal then (acc.1 ++ r.transcript, acc.2) else (acc.1, acc.2 ++ r.transcript))
        (a, b)
      = (a ++ concatAll ((l.filter (fun r => r.isFinal)).map (fun r => r.transcript)),
         b ++ concatAll ((l.filter (fun r => !r.isFinal)).map (fun r => r.transcript))) := by
  induction l generalizing a b with
  | nil => simp [concatAll]
  | cons r rest ih =>
      cases hr : r.isFinal <;> simp [List.foldl_cons, hr, ih, concatAll, String.append_assoc]

theorem onresultTranscript_eq (e : SpeechRecognitionEvent) :
    SpeechInput.onresultTranscript e
      = concatAll (((e.results.drop e.resultIndex).filter (fun r => r.isFinal)).map
          (fun r => r.transcript)) ++
        concatAll (((e.results.drop e.resultIndex).filter (fun r => !r.isFinal)).map
          (fun r => r.transcript)) := by
  simp [SpeechInput.onresultTranscript, SpeechInput.onresultLoop, onresultLoop_foldl]

theorem transcriptAfter_snoc (events : List SpeechRecognitionEvent) (e : SpeechRecognitionEvent)
    (s : SpeechInputState) :
    (SpeechInput.transcriptAfter (events ++ [e]) s).transcript
      = SpeechInput.onresultTranscript e := by
  simp [SpeechInput.transcriptAfter, List.foldl_append, SpeechInput.onresult,
    SpeechInput.useEffect]

/-- C7, as stated, fails: after the events that deliver the final segment `Hello `, then the
interim segment `wor`, then the final segment `world`, the transcript is `world`, not
`Hello world`; after the second event it is `wor`, not `Hello wor`. -/
theorem transcript_drops_earlier_final_segments :
    (SpeechInput.transcriptAfter
        [⟨0, [⟨"Hello ", true⟩]⟩,
         ⟨1, [⟨"Hello ", true⟩, ⟨"wor", false⟩]⟩,
         ⟨1, [⟨"Hello ", true⟩, ⟨"world", true⟩]⟩] SpeechInput.mount).transcript = "world" ∧
    SpeechInput.specTranscript ⟨1, [⟨"Hello ", true⟩, ⟨"world", true⟩]⟩ = "Hello world" ∧
    (SpeechInput.transcriptAfter
        [⟨0, [⟨"Hello ", true⟩]⟩,
         ⟨1, [⟨"Hello ", true⟩, ⟨"wor", false⟩]⟩,
         ⟨1, [⟨"Hello ", true⟩, ⟨"world", true⟩]⟩] SpeechInput.mount).transcript
      ≠ SpeechInput.specTranscript ⟨1, [⟨"Hello ", true⟩, ⟨"world", true⟩]⟩ ∧
    (SpeechInput.transcriptAfter
        [⟨0, [⟨"Hello ", true⟩]⟩,
         ⟨1, [⟨"Hello ", true⟩, ⟨"wor", false⟩]⟩] SpeechInput.mount).transcript = "wor" ∧
    SpeechInput.specTranscript ⟨1, [⟨"Hello ", true⟩, ⟨"wor", false⟩]⟩ = "Hello wor" := by
  decide

/-- C7, amended: after each result event the transcript is built from that event alone: the
final segments among `results[resultIndex..]`, in order, followed by the interim segments
among them; earlier events and the entries before `resultIndex` contribute nothing.  When
`resultIndex` is 0 this is the concatenation of all segments finalized so far followed by the
pending interim text. -/
theorem transcript_is_built_from_the_last_event (events : List SpeechRecognitionEvent)
    (e : SpeechRecognitionEvent) (s : SpeechInputState) :
    (SpeechInput.transcriptAfter (events ++ [e]) s).transcript
      = concatAll (((e.results.drop e.resultIndex).filter (fun r => r.isFinal)).map
          (fun r => r.transcript)) ++
        concatAll (((e.results.drop e.resultIndex).filter (fun r => !r.isFinal)).map
          (fun r => r.transcript)) ∧
    (e.resultIndex = 0 →
      (SpeechInput.transcriptAfter (events ++ [e]) s).transcript
        = SpeechInput.specTranscript e) := by
  refine ⟨by rw [transcriptAfter_snoc, onresultTranscript_eq], ?_⟩
  intro h0
  rw [transcriptAfter_snoc, onresultTranscript_eq, h0]
  simp [SpeechInput.specTranscript]

/-- Witness of C7, amended: an interim `Hel` followed by an event, with `resultIndex` 0, that
holds the final `Hello ` and the interim `wor`. -/
theorem transcript_is_built_from_the_last_event_witness :
    (0 : Nat) = 0 ∧
    (SpeechInput.transcriptAfter
        ([⟨0, [⟨"Hel", false⟩]⟩] ++ [⟨0, [⟨"Hello ", true⟩, ⟨"wor", false⟩]⟩])
        SpeechInput.mount).transcript
      = SpeechInput.specTranscript ⟨0, [⟨"Hello ", true⟩, ⟨"wor", false⟩]⟩ :=
  ⟨rfl,
    (transcript_is_built_from_the_last_event [⟨0, [⟨"Hel", false⟩]⟩]
      ⟨0, [⟨"Hello ", true⟩, ⟨"wor", false⟩]⟩ SpeechInput.mount).2 rfl⟩

/-! ## Message ids -/

/-- C8: on a successful recording whose transcription entry and assistant reply are added
within the same millisecond (clock reading 1200 for both), the two entries get the same id:
the ids of the log are `[1000, 1200, 1200]`, neither pairwise distinct nor strictly
increasing. -/
theorem message_ids_collide_within_one_millisecond :
    (RecordAudio.handleAudioSubmit [1, 2] ⟨1000, "10:00:00"⟩ ⟨1200, "10:00:01"⟩
        ⟨1200, "10:00:01"⟩
        (FetchOutcome.response true
          (some (JsVal.obj [("transcribed_text", JsVal.str "hi"), ("response", JsVal.str "ok")])))
        ⟨App.init, ⟨false, false, 0, none⟩⟩).app.chatLog.map (fun m => m.id)
      = [1000, 1200, 1200] ∧
    ¬ ((RecordAudio.handleAudioSubmit [1, 2] ⟨1000, "10:00:00"⟩ ⟨1200, "10:00:01"⟩
        ⟨1200, "10:00:01"⟩
        (FetchOutcome.response true
          (some (JsVal.obj [("transcribed_text", JsVal.str "hi"), ("response", JsVal.str "ok")])))
        ⟨App.init, ⟨false, false, 0, none⟩⟩).app.chatLog.map (fun m => m.id)).Nodup ∧
    ¬ ((RecordAudio.handleAudioSubmit [1, 2] ⟨1000, "10:00:00"⟩ ⟨1200, "10:00:01"⟩
        ⟨1200, "10:00:01"⟩
        (FetchOutcome.response true
          (some (JsVal.obj [("transcribed_text", JsVal.str "hi"), ("response", JsVal.str "ok")])))
        ⟨App.init, ⟨false, false, 0, none⟩⟩).app.chatLog.map (fun m => m.id)).Pairwise
          (fun a b => a < b) := by
  decide

/-- The id of every appended message is the clock reading of its `addMessage` call: the ids of
the log are the ids before followed by that reading. -/
theorem addMessage_ids (tick : Tick) (sender : String) (text : JsVal) (type : String)
    (metadata : List (String × JsVal)) (s : AppState) :
    (App.addMessage tick sender text type metadata s).chatLog.map (fun m => m.id)
      = s.chatLog.map (fun m => m.id) ++ [tick.now] := by
  simp [App.addMessage]

/-! ## Automatic submission at the end of recognition -/

/-- What `onend` submits is decided by the transcript captured when the started recognition
object was built, that is the transcript shown when the microphone button was pressed, whatever
the session has recognised since. -/
theorem runSession_request (events : List SpeechRecognitionEvent) (tick : Tick)
    (v : View SpeechInputState) (inst : RecognitionInstance)
    (h : v.comp.recognition = some inst) :
    (SpeechInput.runSession events tick v).2
      = if jsTrim inst.transcript = "" then none
        else some { url := SpeechInput.analyzeUrl,
                    body := RequestBody.json (jsTrim inst.transcript) } := by
  by_cases ht : jsTrim inst.transcript = "" <;>
    simp [SpeechInput.runSession, h, SpeechInput.onend, SpeechInput.handleSubmitStart,
      jsTruthy, ht]

/-- C9: a session started on the freshly mounted component (empty transcript) that receives
the final result `hello` ends with the transcript `hello`, which is not blank, and yet `onend`
issues no request and adds nothing to the log.  A second session, started while `hello` is
still shown, that receives `good morning` ends with the transcript `good morning` and submits
`hello`. -/
theorem auto_submit_uses_the_transcript_captured_at_start :
    (SpeechInput.transcriptAfter [⟨0, [⟨"hello", true⟩]⟩] SpeechInput.mount).transcript
      = "hello" ∧
    jsTrim "hello" ≠ "" ∧
    (SpeechInput.runSession [⟨0, [⟨"hello", true⟩]⟩] ⟨1000, "10:00:00"⟩
        ⟨App.init, SpeechInput.mount⟩).2.isSome = false ∧
    (SpeechInput.runSession [⟨0, [⟨"hello", true⟩]⟩] ⟨1000, "10:00:00"⟩
        ⟨App.init, SpeechInput.mount⟩).1.app.chatLog.length = 0 ∧
    (SpeechInput.runSession [⟨0, [⟨"hello", true⟩]⟩] ⟨1000, "10:00:00"⟩
        ⟨App.init, SpeechInput.mount⟩).1.comp.transcript = "hello" ∧
    (SpeechInput.transcriptAfter [⟨0, [⟨"good morning", true⟩]⟩]
        (SpeechInput.runSession [⟨0, [⟨"hello", true⟩]⟩] ⟨1000, "10:00:00"⟩
          ⟨App.init, SpeechInput.mount⟩).1.comp).transcript = "good morning" ∧
    ((SpeechInput.runSession [⟨0, [⟨"good morning", true⟩]⟩] ⟨9000, "10:00:09"⟩
        (SpeechInput.runSession [⟨0, [⟨"hello", true⟩]⟩] ⟨1000, "10:00:00"⟩
          ⟨App.init, SpeechInput.mount⟩).1).2.map
      (fun r => match r.body with | RequestBody.json t => t | _ => ""))
      = some "hello" := by
  decide

/-! ## Replies of unexpected shape -/

/-- C10, as stated, fails: a Text submission answered with status 2xx and the body `{}`
(parsed JSON with no `response`) appends an assistant message, whose text is `undefined`,
and no `System` message, whereas a network failure appends a `System` message. -/
theorem reply_without_response_field_is_accepted :
    ((TextInput.handleSubmit ⟨1000, "10:00:00"⟩ ⟨1200, "10:00:01"⟩
        (FetchOutcome.response true (some (JsVal.obj [])))
        ⟨App.init, ⟨"hi", false⟩⟩).app.chatLog.map
      (fun m => (m.sender, match m.text with | JsVal.undefined => true | _ => false)))
      = [("You", false), ("Therapist", true)] ∧
    (TextInput.handleSubmit ⟨1000, "10:00:00"⟩ ⟨1200, "10:00:01"⟩ FetchOutcome.rejected
        ⟨App.init, ⟨"hi", false⟩⟩).app.chatLog.map (fun m => m.sender)
      = ["You", "System"] ∧
    (TextInput.handleSubmit ⟨1000, "10:00:00"⟩ ⟨1200, "10:00:01"⟩
        (FetchOutcome.response true (some (JsVal.obj [])))
        ⟨App.init, ⟨"hi", false⟩⟩).app.chatLog.map (fun m => m.sender)
      ≠ (TextInput.handleSubmit ⟨1000, "10:00:00"⟩ ⟨1200, "10:00:01"⟩ FetchOutcome.rejected
        ⟨App.init, ⟨"hi", false⟩⟩).app.chatLog.map (fun m => m.sender) := by
  decide

/-- C10, amended: when the status is 2xx and the body is not JSON, or is the JSON value
`null`, every adapter leaves the log as a network failure does: the user message, then one
`System` message, and no assistant message.  When the body is any other JSON value `d`, the
reply is accepted whatever its shape: the assistant message is appended with the text
`d.response`, `undefined` when `d` has no such property, and no `System` message is. -/
theorem reply_is_a_failure_only_when_unparseable_or_null (tick1 tick2 tick3 : Tick)
    (body : Option JsVal) (d : JsVal) (vt : View TextInputState) (vs : View SpeechInputState)
    (captured : String) (va : View RecordAudioState) (blob : List Nat)
    (hb : ∀ x, body = some x → x.isNullish = true) (hd : d.isNullish = false)
    (ht : jsTrim vt.comp.input ≠ "") (hs : jsTrim captured ≠ "") :
    ((TextInput.handleSubmit tick1 tick2 (FetchOutcome.response true body) vt).app.chatLog
        = (TextInput.handleSubmit tick1 tick2 FetchOutcome.rejected vt).app.chatLog ∧
      (TextInput.handleSubmit tick1 tick2 (FetchOutcome.response true body) vt).app.chatLog
        = vt.app.chatLog ++
            [userMessage tick1 (JsVal.str (jsTrim vt.comp.input)) "text",
             systemMessage tick2 TextInput.errorText]) ∧
    ((SpeechInput.handleSubmit captured tick1 tick2 (FetchOutcome.response true body)
          vs).app.chatLog
        = (SpeechInput.handleSubmit captured tick1 tick2 FetchOutcome.rejected vs).app.chatLog ∧
      (SpeechInput.handleSubmit captured tick1 tick2 (FetchOutcome.response true body)
          vs).app.chatLog
        = vs.app.chatLog ++
            [userMessage tick1 (JsVal.str (jsTrim captured)) "speech",
             systemMessage tick2 SpeechInput.errorText]) ∧
    ((RecordAudio.handleAudioSubmit blob tick1 tick2 tick3 (FetchOutcome.response true body)
          va).app.chatLog
        = (RecordAudio.handleAudioSubmit blob tick1 tick2 tick3 FetchOutcome.rejected
          va).app.chatLog ∧
      (RecordAudio.handleAudioSubmit blob tick1 tick2 tick3 (FetchOutcome.response true body)
          va).app.chatLog
        = va.app.chatLog ++
            [userMessage tick1 (JsVal.str RecordAudio.placeholderText) "audio",
             systemMessage tick2 RecordAudio.errorText]) ∧
    (TextInput.handleSubmit tick1 tick2 (FetchOutcome.response true (some d)) vt).app.chatLog
      = vt.app.chatLog ++
          [userMessage tick1 (JsVal.str (jsTrim vt.comp.input)) "text",
           assistantMessage tick2 d] ∧
    (SpeechInput.handleSubmit captured tick1 tick2 (FetchOutcome.response true (some d))
        vs).app.chatLog
      = vs.app.chatLog ++
          [userMessage tick1 (JsVal.str (jsTrim captured)) "speech",
           assistantMessage tick2 d] ∧
    (RecordAudio.handleAudioSubmit blob tick1 tick2 tick3 (FetchOutcome.response true (some d))
        va).app.chatLog
      = va.app.chatLog ++
          [userMessage tick1 (JsVal.str RecordAudio.placeholderText) "audio",
           userMessage tick2 (d.field "transcribed_text") "audio",
           assistantMessage tick3 d] := by
  have hbody : body = none ∨ ∃ x, body = some x ∧ x.isNullish = true := by
    cases body with
    | none => exact Or.inl rfl
    | some x => exact Or.inr ⟨x, rfl, hb x rfl⟩
  refine ⟨?_, ?_, ?_, ?_, ?_, ?_⟩
  · rcases hbody with h | ⟨x, h, hx⟩
    · subst h
      simp [TextInput.handleSubmit, TextInput.handleSubmitStart, TextInput.handleSubmitSettle,
        jsTruthy, ht, App.addMessage, App.handleInputStart, userMessage, systemMessage]
    · subst h
      simp [TextInput.handleSubmit, TextInput.handleSubmitStart, TextInput.handleSubmitSettle,
        jsTruthy, ht, App.handleTextResponse, handleResponse_of_nullish _ hx, App.addMessage,
        App.handleInputStart, userMessage, systemMessage]
  · rcases hbody with h | ⟨x, h, hx⟩
    · subst h
      simp [SpeechInput.handleSubmit, SpeechInput.handleSubmitStart,
        SpeechInput.handleSubmitSettle, jsTruthy, hs, App.addMessage, App.handleInputStart,
        userMessage, systemMessage]
    · subst h
      simp [SpeechInput.handleSubmit, SpeechInput.handleSubmitStart,
        SpeechInput.handleSubmitSettle, jsTruthy, hs, App.handleVoiceResponse,
        handleResponse_of_nullish _ hx, App.addMessage, App.handleInputStart, userMessage,
        systemMessage]
  · rcases hbody with h | ⟨x, h, hx⟩
    · subst h
      simp [RecordAudio.handleAudioSubmit, RecordAudio.handleAudioSubmitStart,
        RecordAudio.handleAudioSubmitSettle, App.addMessage, App.handleInputStart,
        userMessage, systemMessage]
    · subst h
      simp [RecordAudio.handleAudioSubmit, RecordAudio.handleAudioSubmitStart,
        RecordAudio.handleAudioSubmitSettle, getProp_of_nullish hx, App.addMessage,
        App.handleInputStart, userMessage, systemMessage]
  · simp [TextInput.handleSubmit, TextInput.handleSubmitStart, TextInput.handleSubmitSettle,
      jsTruthy, ht, App.handleTextResponse, handleResponse_of_not_nullish _ hd,
      App.addMessage, App.handleInputStart, userMessage]
  · simp [SpeechInput.handleSubmit, SpeechInput.handleSubmitStart,
      SpeechInput.handleSubmitSettle, jsTruthy, hs, App.handleVoiceResponse,
      handleResponse_of_not_nullish _ hd, App.addMessage, App.handleInputStart, userMessage]
  · simp [RecordAudio.handleAudioSubmit, RecordAudio.handleAudioSubmitStart,
      RecordAudio.handleAudioSubmitSettle, App.handleAudioResponse,
      handleResponse_of_not_nullish _ hd, getProp_of_not_nullish hd, App.addMessage,
      App.handleInputStart, userMessage]

/-- Witness of C10, amended: the draft `hi`, a 2xx reply whose body is `null`, and the
reply `{}`. -/
theorem reply_is_a_failure_only_when_unparseable_or_null_witness :
    (∀ x, some JsVal.null = some x → x.isNullish = true) ∧
    (JsVal.obj []).isNullish = false ∧ jsTrim "hi" ≠ "" ∧ jsTrim " hello" ≠ "" ∧
    (TextInput.handleSubmit ⟨1000, "10:00:00"⟩ ⟨1200, "10:00:01"⟩
        (FetchOutcome.response true (some JsVal.null)) ⟨App.init, ⟨"hi", false⟩⟩).app.chatLog
      = (TextInput.handleSubmit ⟨1000, "10:00:00"⟩ ⟨1200, "10:00:01"⟩ FetchOutcome.rejected
        ⟨App.init, ⟨"hi", false⟩⟩).app.chatLog ∧
    (TextInput.handleSubmit ⟨1000, "10:00:00"⟩ ⟨1200, "10:00:01"⟩
        (FetchOutcome.response true (some (JsVal.obj []))) ⟨App.init, ⟨"hi", false⟩⟩).app.chatLog
      = [] ++
          [userMessage ⟨1000, "10:00:00"⟩ (JsVal.str (jsTrim "hi")) "text",
           assistantMessage ⟨1200, "10:00:01"⟩ (JsVal.obj [])] :=
  ⟨fun x hx => by cases hx; rfl, rfl, by decide, by decide,
    (reply_is_a_failure_only_when_unparseable_or_null ⟨1000, "10:00:00"⟩ ⟨1200, "10:00:01"⟩
      ⟨1201, "10:00:01"⟩ (some JsVal.null) (JsVal.obj []) ⟨App.init, ⟨"hi", false⟩⟩
      ⟨App.init, SpeechInput.mount⟩ " hello" ⟨App.init, ⟨false, false, 0, none⟩⟩ [1, 2]
      (fun x hx => by cases hx; rfl) rfl (by decide) (by decide)).1.1,
    (reply_is_a_failure_only_when_unparseable_or_null ⟨1000, "10:00:00"⟩ ⟨1200, "10:00:01"⟩
      ⟨1201, "10:00:01"⟩ (some JsVal.null) (JsVal.obj []) ⟨App.init, ⟨"hi", false⟩⟩
      ⟨App.init, SpeechInput.mount⟩ " hello" ⟨App.init, ⟨false, false, 0, none⟩⟩ [1, 2]
      (fun x hx => by cases hx; rfl) rfl (by decide) (by decide)).2.2.2.1⟩

/-! ## The elapsed-time display -/

theorem digitChar_inj_of_lt_ten :
    ∀ a, a < 10 → ∀ b, b < 10 → Nat.digitChar a = Nat.digitChar b → a = b := by
  decide

theorem map_digitChar_inj (l1 : List Nat) :
    ∀ l2 : List Nat, (∀ d ∈ l1, d < 10) → (∀ d ∈ l2, d < 10) →
      l1.map Nat.digitChar = l2.map Nat.digitChar → l1 = l2 := by
  induction l1 with
  | nil =>
      intro l2 _ _ h
      cases l2 with
      | nil => rfl
      | cons b t => simp at h
  | cons a t ih =>
      intro l2 h1 h2 h
      cases l2 with
      | nil => simp at h
      | cons b t2 =>
          simp only [List.map_cons, List.cons.injEq] at h
          have hab : a = b :=
            digitChar_inj_of_lt_ten a (h1 a (by simp)) b (h2 b (by simp)) h.1
          have htt : t = t2 :=
            ih t2 (fun d hd => h1 d (by simp [hd])) (fun d hd => h2 d (by simp [hd])) h.2
          rw [hab, htt]

theorem decimalNumeral_eq_map (n : Nat) :
    decimalNumeral n
      = String.mk ((if n = 0 then [0] else (Nat.digits 10 n).reverse).map Nat.digitChar) := by
  by_cases h : n = 0
  · subst h
    rfl
  · simp [decimalNumeral, h]

theorem numeral_digits_lt_ten (n : Nat) :
    ∀ d ∈ (if n = 0 then [0] else (Nat.digits 10 n).reverse), d < 10 := by
  intro d hd
  by_cases h : n = 0
  · simp [h] at hd
    omega
  · simp only [h, if_false, List.mem_reverse] at hd
    exact Nat.digits_lt_base (by norm_num) hd

theorem ofDigits_numeral_digits (n : Nat) :
    Nat.ofDigits 10 (if n = 0 then [0] else (Nat.digits 10 n).reverse).reverse = n := by
  by_cases h : n = 0
  · subst h
    simp
  · simp [h, Nat.ofDigits_digits]

theorem decimalNumeral_injective : Function.Injective decimalNumeral := by
  intro n m h
  rw [decimalNumeral_eq_map n, decimalNumeral_eq_map m] at h
  have hl := map_digitChar_inj _ _ (numeral_digits_lt_ten n) (numeral_digits_lt_ten m)
    (congrArg String.data h)
  have hn := ofDigits_numeral_digits n
  rw [hl, ofDigits_numeral_digits m] at hn
  exact hn.symm

theorem toDigitsCore_eq_decimalNumeral (fuel : Nat) :
    ∀ (n : Nat) (ds : List Char), n < fuel →
      Nat.toDigitsCore 10 fuel n ds = (decimalNumeral n).data ++ ds := by
  induction fuel with
  | zero =>
      intro n ds h
      omega
  | succ fuel ih =>
      intro n ds h
      by_cases hq : n / 10 = 0
      · have hn : n < 10 := by omega
        by_cases h0 : n = 0
        · subst h0
          have hz : Nat.digitChar 0 = '0' := rfl
          simp [Nat.toDigitsCore, decimalNumeral, hz]
        · have hd : Nat.digits 10 n = [n] := Nat.digits_of_lt 10 n h0 hn
          simp [Nat.toDigitsCore, hq, decimalNumeral, h0, hd, Nat.mod_eq_of_lt hn]
      · have hn0 : n ≠ 0 := by
          intro h0
          simp [h0] at hq
        have hlt : n / 10 < fuel := by omega
        have hd : Nat.digits 10 n = (n % 10) :: Nat.digits 10 (n / 10) :=
          Nat.digits_def' (by norm_num) (Nat.pos_of_ne_zero hn0)
        simp only [Nat.toDigitsCore, hq, if_false]
        rw [ih (n / 10) _ hlt]
        simp [decimalNumeral, hn0, hq, hd]

theorem jsNumberToString_eq_decimalNumeral (n : Nat) :
    jsNumberToString n = decimalNumeral n := by
  have h := toDigitsCore_eq_decimalNumeral (n + 1) n [] (by omega)
  simp only [List.append_nil] at h
  simp [jsNumberToString, Nat.repr, Nat.toDigits, h, List.asString]

theorem padStart_seconds :
    ∀ k, k < 60 → jsPadStart (jsNumberToString k) 2 "0" = twoDigits k := by
  decide

theorem formatTime_eq_specFormatTime (s : Nat) :
    RecordAudio.formatTime s = RecordAudio.specFormatTime s := by
  simp only [RecordAudio.formatTime, RecordAudio.specFormatTime]
  rw [jsNumberToString_eq_decimalNumeral, padStart_seconds (s % 60) (Nat.mod_lt s (by norm_num))]

theorem specFormatTime_injective : Function.Injective RecordAudio.specFormatTime := by
  intro a b h
  have hdata := congrArg String.data h
  simp only [RecordAudio.specFormatTime, twoDigits, String.data_append] at hdata
  have hsplit := List.append_inj' hdata rfl
  have hmin : a / 60 = b / 60 := by
    apply decimalNumeral_injective
    have h1 := List.append_inj' hsplit.1 rfl
    exact String.ext h1.1
  have hsec := hsplit.2
  simp only [List.cons.injEq, and_true] at hsec
  have ht : a % 60 / 10 = b % 60 / 10 :=
    digitChar_inj_of_lt_ten _ (by omega) _ (by omega) hsec.1
  have hu : a % 60 % 10 = b % 60 % 10 :=
    digitChar_inj_of_lt_ten _ (by omega) _ (by omega) hsec.2
  omega

theorem twoDigits_are_digits :
    ∀ k, k < 60 → (twoDigits k).length = 2 ∧ (twoDigits k).data.all Char.isDigit = true := by
  decide

/-- C11: for every non-negative integer `s`, `formatTime(s)` is the decimal numeral of the
quotient of `s` by 60, then a colon, then `s mod 60` written with exactly two decimal digits.
Hence the seconds field is two digit characters, the tens and units of a value below 60, the
minutes times 60 plus the seconds give back `s`, and `formatTime` is injective. -/
theorem formatTime_is_minutes_colon_two_digit_seconds :
    (∀ s : Nat, RecordAudio.formatTime s
        = decimalNumeral (s / 60) ++ ":" ++ twoDigits (s % 60)) ∧
    (∀ s : Nat, (twoDigits (s % 60)).length = 2 ∧
        (twoDigits (s % 60)).data.all Char.isDigit = true ∧
        10 * (s % 60 / 10) + s % 60 % 10 = s % 60 ∧ s % 60 < 60 ∧
        (s / 60) * 60 + s % 60 = s) ∧
    Function.Injective RecordAudio.formatTime := by
  refine ⟨fun s => formatTime_eq_specFormatTime s, fun s => ?_, ?_⟩
  · have hlt : s % 60 < 60 := Nat.mod_lt s (by norm_num)
    have hd := twoDigits_are_digits (s % 60) hlt
    refine ⟨hd.1, hd.2, by omega, hlt, by omega⟩
  · intro a b h
    rw [formatTime_eq_specFormatTime, formatTime_eq_specFormatTime] at h
    exact specFormatTime_injective h
